import Mathlib

/-!
The `opener` relay daemon of copier.

A shallow embedding of `src/opener.go` and `src/config.go`.

* Go strings and byte slices are byte sequences; `string(data)` and
  `[]byte(s)` are conversions that keep the bytes.
* Calls into the Go standard library and third-party packages
  (`ioutil.ReadAll`, `clipboard.WriteAll`, `conn.Write`, `os.Stat`,
  `homedir.Expand`, `os.RemoveAll`, `yaml.Unmarshal`, `fmt` verbs) are
  taken as oracles of an environment record: the embedding fixes what the
  repository's code does with their results.
* Effects are recorded as a trace of events in program order.
-/

namespace Copier

/-- A Go byte slice. -/
abbrev Bytes := List UInt8

/-- A Go string: an immutable byte sequence. -/
abbrev GoString := List UInt8

/-- A Go string literal, as its UTF-8 bytes. -/
def lit (s : String) : GoString := s.data.flatMap String.utf8EncodeChar

/-- The conversion `string(data)`. -/
def stringOfBytes (b : Bytes) : GoString := b

/-- The conversion `[]byte(s)`. -/
def bytesOfString (s : GoString) : Bytes := s

/-- A value implementing `net.Error`: an error with a `Timeout()` method. -/
structure NetError where
  msg : GoString
  timeout : Bool
  deriving DecidableEq, Repr

/-- A non-nil Go `error` value: either one whose dynamic type does not
implement `net.Error`, or one that does. -/
inductive GoError where
  | plain (msg : GoString)
  | net (e : NetError)
  deriving DecidableEq, Repr

/-- The method `Error()` of an error value. -/
def GoError.Error : GoError → GoString
  | .plain msg => msg
  | .net e => e.msg

/-- The comma-ok type assertion `err.(net.Error)`: `some` when `ok` is true,
`none` (the nil interface, `ok` false) otherwise. -/
def assertNetError : GoError → Option NetError
  | .plain _ => none
  | .net e => some e

/-- The verb `%v` applied to a `net.Error` interface value, which may be nil. -/
def fmtVNetError : Option NetError → GoString
  | none => lit "<nil>"
  | some e => e.msg

/-- The verb `%v` applied to a non-nil `error`. -/
def fmtVError (e : GoError) : GoString := e.Error

/-- Conversion of a mathematical integer to the `int64` it wraps to. -/
def wrapInt64 (x : Int) : Int := (x + 2 ^ 63) % 2 ^ 64 - 2 ^ 63

/-- The constant `10e6` converted to `int64`. -/
def scale10e6 : Int := 10000000

/-- The deadline `time.Now().Add(time.Duration(timeoutMillis * 10e6))`, with
instants and durations in nanoseconds. -/
def readDeadline (now : Int) (timeoutMillis : Int) : Int :=
  now + wrapInt64 (timeoutMillis * scale10e6)

/-- Observable effects of the daemon, in program order. -/
inductive Event where
  | stdout (s : GoString)
  | setReadDeadline (t : Int)
  | readAll
  | errOut (s : GoString)
  | clipboardWriteAll (text : GoString)
  | connWrite (b : Bytes)
  | connClose
  deriving DecidableEq, Repr

/-- What one connection session meets outside the handler. -/
structure ConnEnv where
  /-- the value of `time.Now()`, in nanoseconds -/
  now : Int
  /-- the result `(data, err)` of `ioutil.ReadAll(conn)`; `none` is a nil error -/
  readAll : Bytes × Option GoError
  /-- the result of `clipboard.WriteAll` -/
  clipboardWriteAll : GoString → Option GoError
  /-- the error result of `conn.Write` -/
  connWrite : Bytes → Option GoError
  /-- the text `fmt.Println` prints for an `int64`, without the newline -/
  sprintInt64 : Int → GoString
  /-- the verb `%q` applied to a byte slice -/
  quote : Bytes → GoString

/-- Lines 128-137 of `handleConnection`: the part after a read that ended
normally or by timeout. -/
def afterRead (env : ConnEnv) (data : Bytes) : List Event :=
  [Event.errOut (lit "received " ++ env.quote data ++ lit "\n"),
   Event.clipboardWriteAll (stringOfBytes data)] ++
  match env.clipboardWriteAll (stringOfBytes data) with
  | some err =>
    [Event.errOut (lit "failed to save to clipboard: " ++ fmtVError err ++ lit "\n"),
     Event.connWrite (bytesOfString err.Error)] ++
    (match env.connWrite (bytesOfString err.Error) with
     | some werr =>
       [Event.errOut (lit "failed to send error to client: " ++ fmtVError werr ++ lit "\n")]
     | none => [])
  | none => []

/-- The body of `handleConnection`, lines 115-137, without the deferred close. -/
def handleConnectionBody (env : ConnEnv) (timeoutMillis : Int) : List Event :=
  [Event.stdout (env.sprintInt64 timeoutMillis ++ lit "\n"),
   Event.setReadDeadline (readDeadline env.now timeoutMillis),
   Event.readAll] ++
  match env.readAll with
  | (data, some err) =>
    (match assertNetError err with
     | none =>
       [Event.errOut (lit "failed to read from socket: " ++ fmtVNetError none ++ lit "\n")]
     | some nerr =>
       if !nerr.timeout then
         [Event.errOut (lit "failed to read from socket: " ++ fmtVNetError (some nerr) ++ lit "\n")]
       else afterRead env data)
  | (data, none) => afterRead env data

/-- The function `handleConnection`: the body, then the deferred `conn.Close()`. -/
def handleConnection (env : ConnEnv) (timeoutMillis : Int) : List Event :=
  handleConnectionBody env timeoutMillis ++ [Event.connClose]

/-- The clipboard-write attempts of a trace, in order. -/
def clipboardWrites : List Event → List GoString
  | [] => []
  | Event.clipboardWriteAll t :: es => t :: clipboardWrites es
  | _ :: es => clipboardWrites es

/-- The writes made on the client connection, in order. -/
def connWrites : List Event → List Bytes
  | [] => []
  | Event.connWrite b :: es => b :: connWrites es
  | _ :: es => connWrites es

/-- The lines written to the diagnostics sink, in order. -/
def errOutLines : List Event → List GoString
  | [] => []
  | Event.errOut s :: es => s :: errOutLines es
  | _ :: es => errOutLines es

/-- The read deadlines set on the connection, in order. -/
def deadlinesSet : List Event → List Int
  | [] => []
  | Event.setReadDeadline t :: es => t :: deadlinesSet es
  | _ :: es => deadlinesSet es

/-- The struct `OpenerOptions`; the writer `ErrOut` carries no data of its own,
its output is the `errOut` events of a trace. -/
structure OpenerOptions where
  Network : GoString
  Address : GoString
  Timeout : Int
  deriving DecidableEq, Repr

/-- The options `NewOpenerCmd` starts from. -/
def defaultOptions : OpenerOptions :=
  { Network := lit "unix", Address := lit "~/.copier.sock", Timeout := 10 }

/-- The part of the operating system that startup can change. -/
structure OSState where
  umask : Nat
  /-- the paths that exist in the filesystem -/
  files : List GoString
  deriving DecidableEq, Repr

/-- What startup meets outside the repository's code. -/
structure StartEnv where
  /-- the result of `os.UserHomeDir()` -/
  userHomeDir : Except GoError GoString
  /-- the function `filepath.Join` -/
  join : List GoString → GoString
  /-- the error result of `os.Stat`; `none` is a nil error -/
  stat : GoString → Option GoError
  /-- the result of `os.ReadFile` -/
  readFile : GoString → Except GoError Bytes
  /-- the function `yaml.Unmarshal(b, o)`: the options it leaves and its error -/
  unmarshal : Bytes → OpenerOptions → OpenerOptions × Option GoError
  /-- the function `homedir.Expand` -/
  expand : GoString → Except GoError GoString
  /-- the function `os.RemoveAll`: the filesystem it leaves and its error -/
  removeAll : List GoString → GoString → List GoString × Option GoError
  /-- the text `fmt.Println` prints for the options pointer, without the newline -/
  sprintOptions : OpenerOptions → GoString
  /-- the method `Run`: the state it leaves and the error it returns -/
  run : OpenerOptions → OSState → OSState × Option GoError

/-- The outcome of `LoadOpenerOptionsFromConfig`: the options it leaves behind
the pointer, the error it returns, and what it printed on standard output. -/
structure LoadResult where
  opts : OpenerOptions
  err : Option GoError
  out : List GoString
  deriving DecidableEq, Repr

/-- Lines 27-39 of `LoadOpenerOptionsFromConfig`: reading and decoding the file. -/
def loadFile (env : StartEnv) (configPath : GoString) (o : OpenerOptions) : LoadResult :=
  let out1 := [configPath ++ lit "\n"]
  match env.readFile configPath with
  | .error err => { opts := o, err := some err, out := out1 }
  | .ok b =>
    match env.unmarshal b o with
    | (o1, some err) => { opts := o1, err := some err, out := out1 }
    | (o1, none) =>
      { opts := o1, err := none, out := out1 ++ [env.sprintOptions o1 ++ lit "\n"] }

/-- The function `LoadOpenerOptionsFromConfig`. -/
def LoadOpenerOptionsFromConfig (env : StartEnv) (configPath : GoString) (o : OpenerOptions) :
    LoadResult :=
  if configPath = lit "" then
    match env.userHomeDir with
    | .error err => { opts := o, err := some err, out := [] }
    | .ok dir =>
      let configPath1 := env.join [dir, lit ".config", lit "copier", lit "config.yaml"]
      match env.stat configPath1 with
      | some _ => { opts := o, err := none, out := [] }
      | none => loadFile env configPath1 o
  else
    match env.stat configPath with
    | some err => { opts := o, err := some err, out := [] }
    | none => loadFile env configPath o

/-- The path of the file `LoadOpenerOptionsFromConfig` goes on to stat and read, when
there is one: the supplied path, or the default location under the home directory. -/
def configFileToRead (env : StartEnv) (configPath : GoString) : Option GoString :=
  if configPath = lit "" then
    match env.userHomeDir with
    | .error _ => none
    | .ok dir => some (env.join [dir, lit ".config", lit "copier", lit "config.yaml"])
  else some configPath

/-- The error `errors.New("allowed network are: unix,tcp")`. -/
def errAllowedNetwork : GoError := GoError.plain (lit "allowed network are: unix,tcp")

/-- The method `Validate`: the options it leaves behind the pointer, the state of
the operating system after it, and the error it returns. -/
def Validate (env : StartEnv) (o : OpenerOptions) (w : OSState) :
    OpenerOptions × OSState × Option GoError :=
  if o.Network = lit "unix" then
    match env.expand o.Address with
    | .error err => (o, w, some err)
    | .ok address =>
      let o1 := { o with Address := address }
      let w1 := { w with umask := 0o077 }
      match env.removeAll w1.files o1.Address with
      | (files, some err) => (o1, { w1 with files := files }, some err)
      | (files, none) => (o1, { w1 with files := files }, none)
  else if o.Network = lit "tcp" then (o, w, none)
  else (o, w, some errAllowedNetwork)

/-- The outcome of the command's `RunE`. -/
structure RunEResult where
  /-- the error `RunE` returns -/
  err : Option GoError
  /-- the options `Run` was called on, if it was called -/
  ran : Option OpenerOptions
  /-- the state of the operating system at return -/
  os : OSState
  deriving DecidableEq, Repr

/-- The closure `RunE` of `NewOpenerCmd`, on options `o` and the flag value `configPath`. -/
def RunE (env : StartEnv) (configPath : GoString) (o : OpenerOptions) (w : OSState) :
    RunEResult :=
  let l := LoadOpenerOptionsFromConfig env configPath o
  match l.err with
  | some err => { err := some err, ran := none, os := w }
  | none =>
    match Validate env l.opts w with
    | (_, w1, some err) => { err := some err, ran := none, os := w1 }
    | (o1, w1, none) =>
      let r := env.run o1 w1
      { err := r.2, ran := some o1, os := r.1 }

/-- Whether a diagnostics line is the report of a failed read. -/
def isReadFailureLine (s : GoString) : Bool :=
  (lit "failed to read from socket: ").isPrefixOf s

/-- The condition `ok && err.Timeout()` of line 121: the read error is a timeout. -/
def isTimeoutError (e : GoError) : Bool :=
  match assertNetError e with
  | none => false
  | some nerr => nerr.timeout

/-- An environment for examples: the clipboard and the connection accept every write. -/
def okEnv (rd : Bytes × Option GoError) : ConnEnv :=
  { now := 0, readAll := rd, clipboardWriteAll := fun _ => none,
    connWrite := fun _ => none, sprintInt64 := fun _ => [], quote := fun b => b }

/-- An environment for examples: the clipboard is unavailable and the client is gone. -/
def failEnv (rd : Bytes × Option GoError) : ConnEnv :=
  { now := 0, readAll := rd,
    clipboardWriteAll := fun _ => some (GoError.plain (lit "no clipboard")),
    connWrite := fun _ => some (GoError.plain (lit "broken pipe")),
    sprintInt64 := fun _ => [], quote := fun b => b }

/-- An environment for examples: the home directory is `/home/u`, no file exists,
paths expand to themselves and removal succeeds. -/
def emptyDiskEnv : StartEnv :=
  { userHomeDir := .ok (lit "/home/u"),
    join := fun parts => List.intercalate (lit "/") parts,
    stat := fun _ => some (GoError.plain (lit "no such file or directory")),
    readFile := fun _ => .error (GoError.plain (lit "no such file or directory")),
    unmarshal := fun _ o => (o, none),
    expand := fun a => .ok a,
    removeAll := fun files a => (files.filter (fun f => f != a), none),
    sprintOptions := fun _ => [],
    run := fun _ w => (w, none) }

/-- An environment for examples: as `emptyDiskEnv`, but every path exists and the
configuration file sets the network to `udp`. -/
def udpConfigEnv : StartEnv :=
  { emptyDiskEnv with
    stat := fun _ => none,
    readFile := fun _ => .ok (lit "network: udp"),
    unmarshal := fun _ o => ({ o with Network := lit "udp" }, none) }

/-! ## The connection handler -/

theorem clipboardWrites_afterRead (env : ConnEnv) (data : Bytes) :
    clipboardWrites (afterRead env data ++ [Event.connClose]) = [stringOfBytes data] := by
  unfold afterRead
  cases h1 : env.clipboardWriteAll (stringOfBytes data) with
  | none => simp [clipboardWrites]
  | some err =>
    cases h2 : env.connWrite (bytesOfString err.Error) <;> simp [clipboardWrites, h2]

/-- C1: when the read ends at end-of-stream with payload `P`, the handler makes
exactly one clipboard-write attempt, with `P` as text; the empty payload included. -/
theorem C1_eof_one_clipboard_write (env : ConnEnv) (timeoutMillis : Int) (P : Bytes)
    (h : env.readAll = (P, none)) :
    clipboardWrites (handleConnection env timeoutMillis) = [stringOfBytes P] := by
  simp only [handleConnection, handleConnectionBody, h, List.append_assoc]
  simpa [clipboardWrites] using clipboardWrites_afterRead env P

theorem C1_eof_empty_payload_witness :
    clipboardWrites (handleConnection (okEnv ([], none)) 10) = [[]] :=
  C1_eof_one_clipboard_write (okEnv ([], none)) 10 [] rfl


theorem not_isReadFailureLine_received (x : GoString) :
    isReadFailureLine (lit "received " ++ x) = false := by
  rfl

theorem not_isReadFailureLine_clipboard (x : GoString) :
    isReadFailureLine (lit "failed to save to clipboard: " ++ x) = false := by
  rfl

theorem not_isReadFailureLine_send (x : GoString) :
    isReadFailureLine (lit "failed to send error to client: " ++ x) = false := by
  rfl

theorem isReadFailureLine_read (x : GoString) :
    isReadFailureLine (lit "failed to read from socket: " ++ x) = true := by
  simp [isReadFailureLine]

theorem errOutLines_afterRead_no_read_failure (env : ConnEnv) (data : Bytes) :
    ∀ line ∈ errOutLines (afterRead env data ++ [Event.connClose]),
      isReadFailureLine line = false := by
  unfold afterRead
  cases h1 : env.clipboardWriteAll (stringOfBytes data) with
  | none => simp [errOutLines, not_isReadFailureLine_received]
  | some err =>
    cases h2 : env.connWrite (bytesOfString err.Error) <;>
      simp [errOutLines, h2, not_isReadFailureLine_received, not_isReadFailureLine_clipboard,
        not_isReadFailureLine_send]

/-- C2: when the read ends with a timeout error after accumulating `D`, the handler
goes on exactly as after an end-of-stream with `D`: no read-failure diagnostic is
written and exactly one clipboard-write attempt is made, with content `D`. -/
theorem C2_timeout_is_normal_end (env : ConnEnv) (timeoutMillis : Int) (D : Bytes)
    (nerr : NetError) (h : env.readAll = (D, some (GoError.net nerr)))
    (hto : nerr.timeout = true) :
    clipboardWrites (handleConnection env timeoutMillis) = [stringOfBytes D] ∧
    (∀ line ∈ errOutLines (handleConnection env timeoutMillis),
      isReadFailureLine line = false) ∧
    handleConnection env timeoutMillis =
      handleConnection { env with readAll := (D, none) } timeoutMillis := by
  refine ⟨?_, ?_, ?_⟩
  · simp only [handleConnection, handleConnectionBody, h, assertNetError, hto,
      List.append_assoc]
    simpa [clipboardWrites] using clipboardWrites_afterRead env D
  · simp only [handleConnection, handleConnectionBody, h, assertNetError, hto,
      List.append_assoc]
    simpa [errOutLines] using errOutLines_afterRead_no_read_failure env D
  · simp [handleConnection, handleConnectionBody, h, assertNetError, hto, afterRead]

theorem C2_timeout_witness :
    clipboardWrites (handleConnection
      (okEnv ([104, 105], some (GoError.net ⟨lit "i/o timeout", true⟩))) 10) = [[104, 105]] :=
  (C2_timeout_is_normal_end
    (okEnv ([104, 105], some (GoError.net ⟨lit "i/o timeout", true⟩))) 10 [104, 105]
    ⟨lit "i/o timeout", true⟩ rfl rfl).1

/-- C3: for a read error that is not a timeout, whatever bytes came before it, the
handler makes no clipboard-write attempt and writes nothing to the client: after the
read it only writes one diagnostics line and closes the connection. -/
theorem C3_read_failure_aborts (env : ConnEnv) (timeoutMillis : Int) (D : Bytes)
    (e : GoError) (h : env.readAll = (D, some e)) (hnt : isTimeoutError e = false) :
    clipboardWrites (handleConnection env timeoutMillis) = [] ∧
    connWrites (handleConnection env timeoutMillis) = [] ∧
    handleConnection env timeoutMillis =
      [Event.stdout (env.sprintInt64 timeoutMillis ++ lit "\n"),
       Event.setReadDeadline (readDeadline env.now timeoutMillis),
       Event.readAll,
       Event.errOut (lit "failed to read from socket: " ++
         fmtVNetError (assertNetError e) ++ lit "\n"),
       Event.connClose] := by
  cases e with
  | plain msg =>
    simp [handleConnection, handleConnectionBody, h, assertNetError, clipboardWrites,
      connWrites]
  | net nerr =>
    have hf : nerr.timeout = false := by simpa [isTimeoutError, assertNetError] using hnt
    simp [handleConnection, handleConnectionBody, h, assertNetError, hf, clipboardWrites,
      connWrites]

theorem C3_read_failure_witness :
    clipboardWrites (handleConnection
      (failEnv ([104, 105], some (GoError.plain (lit "closed pipe")))) 10) = [] ∧
    connWrites (handleConnection
      (failEnv ([104, 105], some (GoError.plain (lit "closed pipe")))) 10) = [] :=
  have h := C3_read_failure_aborts
    (failEnv ([104, 105], some (GoError.plain (lit "closed pipe")))) 10 [104, 105]
    (GoError.plain (lit "closed pipe")) rfl rfl
  ⟨h.1, h.2.1⟩

theorem connWrites_afterRead_ok (env : ConnEnv) (data : Bytes)
    (h : env.clipboardWriteAll (stringOfBytes data) = none) :
    connWrites (afterRead env data ++ [Event.connClose]) = [] := by
  simp [afterRead, h, connWrites]

theorem connWrites_afterRead_fail (env : ConnEnv) (data : Bytes) (err : GoError)
    (h : env.clipboardWriteAll (stringOfBytes data) = some err) :
    connWrites (afterRead env data ++ [Event.connClose]) = [bytesOfString err.Error] := by
  cases h2 : env.connWrite (bytesOfString err.Error) <;>
    simp [afterRead, h, h2, connWrites]

/-- Every run of the handler either stops at a failed read, with no clipboard call and
no write to the client, or goes through `afterRead` on the bytes that were read. -/
theorem handleConnection_cases (env : ConnEnv) (timeoutMillis : Int) :
    (clipboardWrites (handleConnection env timeoutMillis) = [] ∧
      connWrites (handleConnection env timeoutMillis) = []) ∨
    (clipboardWrites (handleConnection env timeoutMillis) = [stringOfBytes env.readAll.1] ∧
      connWrites (handleConnection env timeoutMillis) =
        connWrites (afterRead env env.readAll.1 ++ [Event.connClose])) := by
  rcases hr : env.readAll with ⟨data, _ | e⟩
  · right
    simp only [handleConnection, handleConnectionBody, hr, List.append_assoc]
    exact ⟨by simpa [clipboardWrites] using clipboardWrites_afterRead env data,
      by simp [connWrites]⟩
  · cases e with
    | plain msg =>
      left
      simp [handleConnection, handleConnectionBody, hr, assertNetError, clipboardWrites,
        connWrites]
    | net nerr =>
      cases hto : nerr.timeout
      · left
        simp [handleConnection, handleConnectionBody, hr, assertNetError, hto,
          clipboardWrites, connWrites]
      · right
        simp only [handleConnection, handleConnectionBody, hr, assertNetError, hto,
          List.append_assoc]
        exact ⟨by simpa [clipboardWrites] using clipboardWrites_afterRead env data,
          by simp [connWrites]⟩

/-- C4: the handler writes to the client exactly when a clipboard write was attempted
and failed. Then it makes one write on the connection, the bytes of the failure's
`Error()` text, and the clipboard call stays the only one, whatever the write-back
returns; when the clipboard write succeeds, or none is attempted, nothing is written
to the client. -/
theorem C4_write_back_iff_clipboard_failure (env : ConnEnv) (timeoutMillis : Int) :
    (∀ text err, text ∈ clipboardWrites (handleConnection env timeoutMillis) →
      env.clipboardWriteAll text = some err →
        connWrites (handleConnection env timeoutMillis) = [bytesOfString err.Error] ∧
        clipboardWrites (handleConnection env timeoutMillis) = [text]) ∧
    ((∀ text, text ∈ clipboardWrites (handleConnection env timeoutMillis) →
        env.clipboardWriteAll text = none) →
      connWrites (handleConnection env timeoutMillis) = []) := by
  rcases handleConnection_cases env timeoutMillis with ⟨hc, hw⟩ | ⟨hc, hw⟩
  · simp [hc, hw]
  · refine ⟨?_, ?_⟩
    · intro text err hmem herr
      rw [hc] at hmem
      have ht : text = stringOfBytes env.readAll.1 := by simpa using hmem
      subst ht
      exact ⟨by rw [hw]; exact connWrites_afterRead_fail env _ err herr, hc⟩
    · intro hall
      rw [hw]
      exact connWrites_afterRead_ok env _ (hall _ (by simp [hc]))

theorem C4_write_back_witness :
    connWrites (handleConnection (failEnv ([104, 105], none)) 10) =
      [bytesOfString (lit "no clipboard")] ∧
    clipboardWrites (handleConnection (failEnv ([104, 105], none)) 10) = [[104, 105]] ∧
    connWrites (handleConnection (okEnv ([104, 105], none)) 10) = [] :=
  have h1 := (C4_write_back_iff_clipboard_failure (failEnv ([104, 105], none)) 10).1
    [104, 105] (GoError.plain (lit "no clipboard")) (by decide) rfl
  have h2 := (C4_write_back_iff_clipboard_failure (okEnv ([104, 105], none)) 10).2
    (fun _ _ => rfl)
  ⟨h1.1, h1.2, h2⟩

theorem connClose_not_mem_afterRead (env : ConnEnv) (data : Bytes) :
    Event.connClose ∉ afterRead env data := by
  unfold afterRead
  cases h1 : env.clipboardWriteAll (stringOfBytes data) with
  | none => simp
  | some err => cases h2 : env.connWrite (bytesOfString err.Error) <;> simp [h2]

theorem connClose_not_mem_body (env : ConnEnv) (timeoutMillis : Int) :
    Event.connClose ∉ handleConnectionBody env timeoutMillis := by
  have ha := connClose_not_mem_afterRead env
  rcases hr : env.readAll with ⟨data, _ | e⟩
  · simp [handleConnectionBody, hr, ha]
  · cases e with
    | plain msg => simp [handleConnectionBody, hr, assertNetError]
    | net nerr =>
      cases hto : nerr.timeout <;> simp [handleConnectionBody, hr, assertNetError, hto, ha]

/-- C7: on every exit path of the handler the connection is closed exactly once, and
the close is the last event of the run, so it follows every other operation on the
connection, the error write-back included. -/
theorem C7_closed_exactly_once_last (env : ConnEnv) (timeoutMillis : Int) :
    (handleConnection env timeoutMillis).count Event.connClose = 1 ∧
    (handleConnection env timeoutMillis).getLast? = some Event.connClose ∧
    Event.connClose ∉ (handleConnection env timeoutMillis).dropLast := by
  have hb := connClose_not_mem_body env timeoutMillis
  refine ⟨?_, ?_, ?_⟩
  · rw [handleConnection, List.count_append, List.count_eq_zero_of_not_mem hb]
    simp
  · simp [handleConnection]
  · simpa [handleConnection, List.dropLast_concat] using hb

/-- A read error that implements `net.Error` and is not a timeout is reported with
its own text. -/
theorem read_failure_line_net (env : ConnEnv) (timeoutMillis : Int) (D : Bytes)
    (nerr : NetError) (h : env.readAll = (D, some (GoError.net nerr)))
    (hto : nerr.timeout = false) :
    errOutLines (handleConnection env timeoutMillis) =
      [lit "failed to read from socket: " ++ (GoError.net nerr).Error ++ lit "\n"] := by
  simp [handleConnection, handleConnectionBody, h, assertNetError, hto, errOutLines,
    fmtVNetError, GoError.Error]

/-- C10: for a read error that does not implement `net.Error`, the line the handler
writes to the diagnostics sink is `failed to read from socket: <nil>`: the variable
printed is the nil result of the failed type assertion, not the read error, so the
error's own text is not in the line. -/
theorem C10_plain_read_error_printed_as_nil (env : ConnEnv) (timeoutMillis : Int)
    (D : Bytes) (msg : GoString) :
    errOutLines
        (handleConnection { env with readAll := (D, some (GoError.plain msg)) }
          timeoutMillis) =
      [lit "failed to read from socket: " ++ lit "<nil>" ++ lit "\n"] ∧
    errOutLines
        (handleConnection
          { okEnv ([], none) with
            readAll := ([], some (GoError.plain (lit "io: read/write on closed pipe"))) }
          10) ≠
      [lit "failed to read from socket: " ++
        (GoError.plain (lit "io: read/write on closed pipe")).Error ++ lit "\n"] := by
  refine ⟨?_, ?_⟩
  · simp [handleConnection, handleConnectionBody, assertNetError, errOutLines,
      fmtVNetError]
  · decide

/-- Without overflow the deadline is ten times the configured number of milliseconds
after the current time. -/
theorem readDeadline_no_overflow (now t : Int)
    (h : -2 ^ 63 ≤ t * 10000000 ∧ t * 10000000 < 2 ^ 63) :
    readDeadline now t = now + 10 * (t * 1000000) := by
  unfold readDeadline wrapInt64 scale10e6
  have : (t * 10000000 + 2 ^ 63) % 2 ^ 64 = t * 10000000 + 2 ^ 63 := by
    apply Int.emod_eq_of_lt <;> omega
  omega

/-- C5: with timeout 50 the read deadline the handler sets is 500 ms after now, not
50 ms, and with the default 10 it is 100 ms after now, not 10 ms: the configured
value is multiplied by 10,000,000 ns. -/
theorem C5_deadline_is_ten_times_too_late (env : ConnEnv) :
    deadlinesSet (handleConnection env 50) = [env.now + 500000000] ∧
    deadlinesSet (handleConnection env 50) ≠ [env.now + 50 * 1000000] ∧
    deadlinesSet (handleConnection env 10) = [env.now + 100000000] ∧
    deadlinesSet (handleConnection env 10) ≠ [env.now + 10 * 1000000] := by
  have key : ∀ t : Int, deadlinesSet (handleConnection env t) = [readDeadline env.now t] := by
    intro t
    rcases hr : env.readAll with ⟨data, _ | e⟩
    · cases h1 : env.clipboardWriteAll (stringOfBytes data) with
      | none => simp [handleConnection, handleConnectionBody, hr, afterRead, h1, deadlinesSet]
      | some err =>
        cases h2 : env.connWrite (bytesOfString err.Error) <;>
          simp [handleConnection, handleConnectionBody, hr, afterRead, h1, h2, deadlinesSet]
    · cases e with
      | plain msg =>
        simp [handleConnection, handleConnectionBody, hr, assertNetError, deadlinesSet]
      | net nerr =>
        cases hto : nerr.timeout
        · simp [handleConnection, handleConnectionBody, hr, assertNetError, hto, deadlinesSet]
        · cases h1 : env.clipboardWriteAll (stringOfBytes data) with
          | none =>
            simp [handleConnection, handleConnectionBody, hr, assertNetError, hto, afterRead,
              h1, deadlinesSet]
          | some err =>
            cases h2 : env.connWrite (bytesOfString err.Error) <;>
              simp [handleConnection, handleConnectionBody, hr, assertNetError, hto,
                afterRead, h1, h2, deadlinesSet]
  have h50 : readDeadline env.now 50 = env.now + 500000000 := by
    rw [readDeadline_no_overflow _ _ (by norm_num)]; norm_num
  have h10 : readDeadline env.now 10 = env.now + 100000000 := by
    rw [readDeadline_no_overflow _ _ (by norm_num)]; norm_num
  rw [key, key, h50, h10]
  refine ⟨rfl, ?_, rfl, ?_⟩ <;> simp

/-! ## Startup: configuration loading and validation -/

theorem Validate_unsupported (env : StartEnv) (o : OpenerOptions) (w : OSState)
    (hu : o.Network ≠ lit "unix") (ht : o.Network ≠ lit "tcp") :
    Validate env o w = (o, w, some errAllowedNetwork) := by
  simp [Validate, hu, ht]

theorem Validate_tcp (env : StartEnv) (o : OpenerOptions) (w : OSState)
    (ht : o.Network = lit "tcp") : Validate env o w = (o, w, none) := by
  have hne : lit "tcp" ≠ lit "unix" := by decide
  simp [Validate, ht, hne]

/-- C6: for a network other than `unix` and `tcp`, `Validate` returns its error and
leaves the address, the umask and the filesystem as they were; `RunE`, once the
configuration has loaded with such a network, returns that error with `Run` not
called and the system unchanged, and whenever the loaded options carry such a network
`Run` is not called and an error is returned. For network `tcp`, `Validate` returns
nil and changes nothing. -/
theorem C6_unsupported_network_fails_before_bind (env : StartEnv) (o : OpenerOptions)
    (w : OSState) (hu : o.Network ≠ lit "unix") (ht : o.Network ≠ lit "tcp") :
    Validate env o w = (o, w, some errAllowedNetwork) ∧
    (∀ configPath o0, (LoadOpenerOptionsFromConfig env configPath o0).err = none →
      (LoadOpenerOptionsFromConfig env configPath o0).opts = o →
      RunE env configPath o0 w = { err := some errAllowedNetwork, ran := none, os := w }) ∧
    (∀ configPath o0, (LoadOpenerOptionsFromConfig env configPath o0).opts = o →
      (RunE env configPath o0 w).ran = none ∧ (RunE env configPath o0 w).err ≠ none ∧
      (RunE env configPath o0 w).os = w) ∧
    (∀ o1 w1, o1.Network = lit "tcp" → Validate env o1 w1 = (o1, w1, none)) := by
  have hv := Validate_unsupported env o w hu ht
  refine ⟨hv, ?_, ?_, fun o1 w1 h => Validate_tcp env o1 w1 h⟩
  · intro configPath o0 he h
    simp [RunE, he, h, hv]
  · intro configPath o0 h
    cases he : (LoadOpenerOptionsFromConfig env configPath o0).err with
    | some err => simp [RunE, he]
    | none => simp [RunE, he, h, hv]

theorem C6_unsupported_network_witness :
    Validate udpConfigEnv { defaultOptions with Network := lit "udp" } ⟨18, []⟩ =
      ({ defaultOptions with Network := lit "udp" }, ⟨18, []⟩, some errAllowedNetwork) ∧
    RunE udpConfigEnv (lit "/etc/copier.yaml") defaultOptions ⟨18, []⟩ =
      { err := some errAllowedNetwork, ran := none, os := ⟨18, []⟩ } :=
  have h := C6_unsupported_network_fails_before_bind udpConfigEnv
    { defaultOptions with Network := lit "udp" } ⟨18, []⟩ (by decide) (by decide)
  ⟨h.1, h.2.1 (lit "/etc/copier.yaml") defaultOptions (by decide) (by decide)⟩

/-- C8: when the file `LoadOpenerOptionsFromConfig` would read is absent, it returns
an error exactly when a path was supplied; with no path supplied (the default
location, under a home directory that could be determined) it returns nil and leaves
the options unchanged. -/
theorem C8_missing_config_file (env : StartEnv) (configPath : GoString)
    (o : OpenerOptions) (p : GoString)
    (hp : configFileToRead env configPath = some p) (habs : env.stat p ≠ none) :
    ((LoadOpenerOptionsFromConfig env configPath o).err ≠ none ↔ configPath ≠ lit "") ∧
    (configPath = lit "" →
      (LoadOpenerOptionsFromConfig env configPath o).err = none ∧
      (LoadOpenerOptionsFromConfig env configPath o).opts = o) := by
  by_cases hc : configPath = lit ""
  · cases hh : env.userHomeDir with
    | error e => simp [configFileToRead, hc, hh] at hp
    | ok dir =>
      have hp' : env.join [dir, lit ".config", lit "copier", lit "config.yaml"] = p := by
        simpa [configFileToRead, hc, hh] using hp
      cases hs : env.stat p with
      | none => exact absurd hs habs
      | some e =>
        simp [LoadOpenerOptionsFromConfig, hc, hh, hp', hs]
  · have hp' : configPath = p := by simpa [configFileToRead, hc] using hp
    subst hp'
    cases hs : env.stat configPath with
    | none => exact absurd hs habs
    | some e => simp [LoadOpenerOptionsFromConfig, hc, hs]

theorem C8_missing_config_file_witness :
    ((LoadOpenerOptionsFromConfig emptyDiskEnv (lit "") defaultOptions).err = none ∧
      (LoadOpenerOptionsFromConfig emptyDiskEnv (lit "") defaultOptions).opts =
        defaultOptions) ∧
    (LoadOpenerOptionsFromConfig emptyDiskEnv (lit "/etc/copier.yaml") defaultOptions).err
      ≠ none :=
  ⟨(C8_missing_config_file emptyDiskEnv (lit "") defaultOptions
      (lit "/home/u/.config/copier/config.yaml") (by decide) (by decide)).2 rfl,
   (C8_missing_config_file emptyDiskEnv (lit "/etc/copier.yaml") defaultOptions
      (lit "/etc/copier.yaml") (by decide) (by decide)).1.2 (by decide)⟩

/-- C9, as stated, fails: with network `tcp` and an empty address `Validate`
returns nil. -/
theorem C9_counterexample_empty_address_accepted :
    ¬ (∀ (env : StartEnv) (o : OpenerOptions) (w : OSState), o.Address = lit "" →
        (o.Network = lit "unix" ∨ o.Network = lit "tcp") → (Validate env o w).2.2 ≠ none) := by
  intro h
  exact h emptyDiskEnv { Network := lit "tcp", Address := lit "", Timeout := 10 } ⟨18, []⟩
    rfl (Or.inr rfl) (by decide)

/-- C9, amended: every configuration `Validate` accepts has network `unix` or `tcp`,
and the address is not checked: with network `tcp` it returns nil for every address,
the empty one included, and with network `unix` it returns an error exactly when
the expansion of the address or the removal of the existing entry fails. -/
theorem C9_validate_checks_network_not_address (env : StartEnv) (o : OpenerOptions)
    (w : OSState) :
    ((Validate env o w).2.2 = none → o.Network = lit "unix" ∨ o.Network = lit "tcp") ∧
    (o.Network = lit "tcp" → (Validate env o w).2.2 = none) ∧
    (o.Network = lit "unix" →
      ((Validate env o w).2.2 ≠ none ↔
        (∃ e, env.expand o.Address = .error e) ∨
        (∃ a, env.expand o.Address = .ok a ∧ (env.removeAll w.files a).2 ≠ none))) := by
  refine ⟨?_, ?_, ?_⟩
  · intro h
    by_contra hn
    push_neg at hn
    rw [Validate_unsupported env o w hn.1 hn.2] at h
    simp at h
  · intro ht
    rw [Validate_tcp env o w ht]
  · intro hu
    cases he : env.expand o.Address with
    | error e => simp [Validate, hu, he]
    | ok a =>
      rcases hr : env.removeAll w.files a with ⟨files, _ | e⟩ <;>
        simp [Validate, hu, he, hr]

theorem C9_validate_witness :
    (Validate emptyDiskEnv { Network := lit "tcp", Address := lit "", Timeout := 10 }
      ⟨18, []⟩).2.2 = none :=
  (C9_validate_checks_network_not_address emptyDiskEnv
    { Network := lit "tcp", Address := lit "", Timeout := 10 } ⟨18, []⟩).2.1 rfl

end Copier
